import Mathlib

/-
Verification development for the real-time threat-detection pipeline.

The Python sources are shallowly embedded:
* Python dict/str/number/bool/None values become the inductive type Value;
  a raw log event (a Python dict) is a list of key/value pairs in insertion
  order, and dict.get is lookup with a default.
* External library calls (hashlib.md5, datetime.fromisoformat, repr/str
  rendering of non-string values, numpy.log2, re.findall) are fields of the
  structure PyExt: the embedded functions are parameterised by them, and
  theorems quantify over every Ext.
* Code that may raise is embedded in the Except monad; a bare try/except
  that degrades to a sentinel becomes a total function returning the
  sentinel on the error branch.
* Python floats are modelled by rationals.
-/

/-- Python values appearing in log-event dictionaries: strings, numbers
(ints and floats are both rationals here), booleans, None, and nested
dictionaries. -/
inductive Value where
  | str (s : String)
  | num (q : ℚ)
  | bool (b : Bool)
  | null
  | dict (fields : List (String × Value))

/-- One raw log event: a Python dict in insertion order. -/
abbrev RawEvent := List (String × Value)

/-- Association-list lookup, first match wins (Python dict access). -/
def alookup {α : Type} (l : List (String × α)) (k : String) : Option α :=
  match l with
  | [] => none
  | (k', v) :: rest => if k' = k then some v else alookup rest k

/-- Embedding of log_event.get(key, default) on the top-level event dict. -/
def pyGet (ev : RawEvent) (k : String) (dflt : Value) : Value :=
  (alookup ev k).getD dflt

/-- Python truthiness of a Value (used by `or` chains and `if x:`). -/
def truthy : Value → Bool
  | .str s => s != ""
  | .num q => q != 0
  | .bool b => b
  | .null => false
  | .dict l => !l.isEmpty

/-- Embedding of v.get(key, default) where v is an arbitrary Value: raises
AttributeError (the error branch) unless v is a dict. -/
def vGetD (v : Value) (k : String) (dflt : Value) : Except Unit Value :=
  match v with
  | .dict l => .ok ((alookup l k).getD dflt)
  | _ => .error ()

/-- Embedding of v.get(key) with no default (absent key gives None). -/
def vGet (v : Value) (k : String) : Except Unit Value :=
  vGetD v k .null

/-- Python `a or b` where a is already evaluated and b may raise: returns a
when a is truthy, otherwise evaluates b. -/
def pyOr (a : Value) (b : Except Unit Value) : Except Unit Value :=
  if truthy a then .ok a else b

/-- External library functions the pipeline calls, kept abstract: the
embedded code is parameterised by a PyExt and theorems hold for all of
them. -/
structure PyExt where
  /-- hashlib.md5(s.encode()).hexdigest() -/
  md5hex : String → String
  /-- int(hashlib.md5(s.encode()).hexdigest()[:8], 16) -/
  md5int8 : String → Nat
  /-- datetime.fromisoformat: on success gives (hour, weekday), hour in
  [0,23] and weekday in [0,6]; none models a raised ValueError. -/
  parseTs : String → Option (Nat × Nat)
  /-- repr/str rendering of a non-string Python value -/
  reprVal : Value → String
  /-- numpy.log2 on a positive rational frequency -/
  log2 : ℚ → ℚ
  /-- count of re.findall matches of MALICIOUS_PATTERNS[i] in a text -/
  findallCount : Nat → String → Nat

/-- Python str(v): the identity on strings, external rendering otherwise. -/
def pyStr (ext : PyExt) : Value → String
  | .str s => s
  | v => ext.reprVal v

/-- Containment of one character list in another at any position. -/
def containsSubChars (needle : List Char) : List Char → Bool
  | [] => needle.isEmpty
  | c :: rest => needle.isPrefixOf (c :: rest) || containsSubChars needle rest

/-- String containment test (Python `needle in hay`). -/
def containsSub (hay needle : String) : Bool :=
  containsSubChars needle.data hay.data

/-- FeatureExtractor.SUSPICIOUS_AGENTS -/
def SUSPICIOUS_AGENTS : List String :=
  ["bot", "crawler", "scanner", "sqlmap", "nikto", "nmap"]

/-- FeatureExtractor._hash_value: 0 for empty or unknown strings, otherwise
the first 8 hex digits of the md5 digest taken mod 1 000 000. -/
def hash_value (ext : PyExt) (value : String) : ℚ :=
  if value = "" ∨ value = "unknown" then 0
  else ((ext.md5int8 value % 1000000 : ℕ) : ℚ)

/-- FeatureExtractor._is_private_ip: RFC1918 check over the dotted octets;
a parse failure (ValueError) lands in the except branch giving 0. -/
def is_private_ip (ip : String) : ℚ :=
  let octets := ip.splitOn "."
  if octets.length ≠ 4 then 0
  else
    match (octets.getD 0 "").toInt?, (octets.getD 1 "").toInt? with
    | some first, some second =>
        if first = 10 then 1
        else if first = 172 ∧ 16 ≤ second ∧ second ≤ 31 then 1
        else if first = 192 ∧ second = 168 then 1
        else 0
    | _, _ => 0

/-- FeatureExtractor._get_ip_reputation: 0.9 for private IPs, neutral 0.5
otherwise.  The ip_cache only memoises this same computation, so the cache
is transparent to the returned value. -/
def get_ip_reputation (ip : String) : ℚ :=
  if is_private_ip ip = 1 then 9/10 else 1/2

/-- FeatureExtractor._check_suspicious_agent -/
def check_suspicious_agent (user_agent : String) : ℚ :=
  if SUSPICIOUS_AGENTS.any (fun a => containsSub user_agent.toLower a) then 1 else 0

/-- FeatureExtractor._check_pattern: count of regex matches, min(count/10, 1). -/
def check_pattern (ext : PyExt) (patternIdx : Nat) (text : String) : ℚ :=
  min ((ext.findallCount patternIdx text : ℚ) / 10) 1

/-- FeatureExtractor._calculate_entropy: Shannon entropy of the character
frequencies (np.log2 kept abstract); empty text gives 0. -/
def calculate_entropy (ext : PyExt) (text : String) : ℚ :=
  if text = "" then 0
  else
    let l := text.data
    let len : ℚ := (l.length : ℚ)
    (l.dedup).foldl
      (fun acc c =>
        let p : ℚ := ((l.count c : ℕ) : ℚ) / len
        acc - p * ext.log2 p)
      0

/-- Sentinel temporal features for a missing, falsy, or unparseable
timestamp (both the else branch and the except branch of
_extract_temporal_features produce this mapping). -/
def temporalSentinel : List (String × Value) :=
  [("hour", .num (-1)), ("day_of_week", .num (-1)), ("is_weekend", .num 0),
   ("is_business_hours", .num 0), ("is_night", .num 0)]

/-- FeatureExtractor._extract_temporal_features.  A non-string truthy
timestamp raises AttributeError at .replace, which the internal except
catches, also yielding the sentinel. -/
def extract_temporal_features (ext : PyExt) (ev : RawEvent) : List (String × Value) :=
  let ts := pyGet ev "timestamp" (.str "")
  if truthy ts then
    match ts with
    | .str s =>
        match ext.parseTs (s.replace "Z" "+00:00") with
        | some (hour, weekday) =>
            [("hour", .num (hour : ℚ)),
             ("day_of_week", .num (weekday : ℚ)),
             ("is_weekend", .num (if weekday ≥ 5 then 1 else 0)),
             ("is_business_hours", .num (if 9 ≤ hour ∧ hour ≤ 17 then 1 else 0)),
             ("is_night", .num (if hour < 6 ∨ hour > 22 then 1 else 0))]
        | none => temporalSentinel
    | _ => temporalSentinel
  else temporalSentinel

/-- FeatureExtractor._extract_network_features.  Raises (error branch) when
the message field — or, when the fallback is reached, the raw_data field —
is present but not a dict. -/
def extract_network_features (ext : PyExt) (ev : RawEvent) :
    Except Unit (List (String × Value)) := do
  let message := pyGet ev "message" (.dict [])
  let raw_data := pyGet ev "raw_data" (.dict [])
  let v1 ← vGet message "ip_address"
  let ip_address ←
    if truthy v1 then pure v1
    else do
      let v2 ← vGet message "IPAddress"
      if truthy v2 then pure v2
      else do
        let v3 ← vGet raw_data "ip_address"
        if truthy v3 then pure v3 else pure (Value.str "unknown")
  let ipStr := pyStr ext ip_address
  let u1 ← vGetD message "user_agent" (.str "")
  let user_agent ← pyOr u1 (vGetD message "UserAgent" (.str ""))
  let uaStr := pyStr ext user_agent
  pure [("ip_address_hash", .num (hash_value ext ipStr)),
        ("is_private_ip", .num (is_private_ip ipStr)),
        ("ip_reputation_score", .num (get_ip_reputation ipStr)),
        ("is_suspicious_agent", .num (check_suspicious_agent uaStr)),
        ("user_agent_length", .num ((uaStr.length : ℕ) : ℚ))]

/-- FeatureExtractor._extract_event_features.  The message.get fallbacks
raise when the message field is present but not a dict and the primary
top-level lookup was falsy. -/
def extract_event_features (ext : PyExt) (ev : RawEvent) :
    Except Unit (List (String × Value)) := do
  let message := pyGet ev "message" (.dict [])
  let event_id ← pyOr (pyGet ev "event_id" (.str ""))
      (vGetD message "EventID" (.str "unknown"))
  let event_idStr := pyStr ext event_id
  let activity ← pyOr (pyGet ev "activity" (.str ""))
      (vGetD message "Activity" (.str ""))
  let category ← pyOr (pyGet ev "category" (.str ""))
      (vGetD message "Category" (.str "unknown"))
  let r1 := pyGet ev "result_type" .null
  let result_type ←
    if truthy r1 then pure r1
    else do
      let r2 ← vGet message "ResultType"
      if truthy r2 then pure r2
      else do
        let r3 ← vGet message "Status"
        if truthy r3 then pure r3 else pure (Value.str "unknown")
  let resultStr := (pyStr ext result_type).toLower
  let identity ← pyOr (pyGet ev "identity" (.str ""))
      (vGetD message "Identity" (.str ""))
  pure [("event_id_hash", .num (hash_value ext event_idStr)),
        ("activity_hash", .num (hash_value ext (pyStr ext activity))),
        ("category_hash", .num (hash_value ext (pyStr ext category))),
        ("is_failure", .num (if containsSub resultStr "fail" then 1 else 0)),
        ("is_success", .num (if containsSub resultStr "success" then 1 else 0)),
        ("identity_hash", .num (hash_value ext (pyStr ext identity))),
        ("has_identity", .num (if truthy identity then 1 else 0))]

/-- FeatureExtractor._extract_pattern_features: the five pattern scores over
the lower-cased serialisation of the whole event, plus their mean. -/
def extract_pattern_features (ext : PyExt) (ev : RawEvent) : List (String × Value) :=
  let log_str := (pyStr ext (.dict ev)).toLower
  let s0 := check_pattern ext 0 log_str
  let s1 := check_pattern ext 1 log_str
  let s2 := check_pattern ext 2 log_str
  let s3 := check_pattern ext 3 log_str
  let s4 := check_pattern ext 4 log_str
  [("sql_injection_score", .num s0),
   ("xss_score", .num s1),
   ("path_traversal_score", .num s2),
   ("command_injection_score", .num s3),
   ("code_execution_score", .num s4),
   ("overall_malicious_score", .num ((s0 + s1 + s2 + s3 + s4) / 5))]

/-- FeatureExtractor._extract_statistical_features (total: str, len,
isalnum and isinstance never raise). -/
def extract_statistical_features (ext : PyExt) (ev : RawEvent) : List (String × Value) :=
  let message := pyGet ev "message" (.dict [])
  let message_str := pyStr ext message
  [("message_length", .num ((message_str.length : ℕ) : ℚ)),
   ("num_special_chars",
     .num (((message_str.data.filter (fun c => !c.isAlphanum)).length : ℕ) : ℚ)),
   ("entropy", .num (calculate_entropy ext message_str)),
   ("num_fields", .num (match message with | .dict l => ((l.length : ℕ) : ℚ) | _ => 0))]

/-- Body of FeatureExtractor.extract_features inside its try block: the
base fields followed by the five sub-extraction updates (keys are pairwise
distinct, so dict update is list append). -/
def extractFeaturesCore (ext : PyExt) (ev : RawEvent) :
    Except Unit (List (String × Value)) := do
  let base := [("source", pyGet ev "source" (.str "unknown")),
               ("timestamp", pyGet ev "timestamp" (.str ""))]
  let temporal := extract_temporal_features ext ev
  let network ← extract_network_features ext ev
  let eventF ← extract_event_features ext ev
  let pattern := extract_pattern_features ext ev
  let stats := extract_statistical_features ext ev
  pure (base ++ temporal ++ network ++ eventF ++ pattern ++ stats)

/-- FeatureExtractor.extract_features: the outer except catches any raise
from a sub-extraction and returns the empty dict. -/
def extract_features (ext : PyExt) (ev : RawEvent) : List (String × Value) :=
  match extractFeaturesCore ext ev with
  | .ok f => f
  | .error _ => []

/-- Every feature name extract_features declares, in insertion order. -/
def declaredFeatureNames : List String :=
  ["source", "timestamp",
   "hour", "day_of_week", "is_weekend", "is_business_hours", "is_night",
   "ip_address_hash", "is_private_ip", "ip_reputation_score",
   "is_suspicious_agent", "user_agent_length",
   "event_id_hash", "activity_hash", "category_hash",
   "is_failure", "is_success", "identity_hash", "has_identity",
   "sql_injection_score", "xss_score", "path_traversal_score",
   "command_injection_score", "code_execution_score", "overall_malicious_score",
   "message_length", "num_special_chars", "entropy", "num_fields"]

/-- Concrete instantiation of the external functions, used to evaluate the
embedding at closed inputs (the properties checked on it do not depend on
the choice of instantiation). -/
def extDefault : PyExt where
  md5hex := fun s => s
  md5int8 := fun _ => 0
  parseTs := fun _ => none
  reprVal := fun _ => ""
  log2 := fun _ => 0
  findallCount := fun _ _ => 0

/-
LogPreprocessor.prepare_for_ml (src/preprocessing/preprocessor.py).
A single data row is modelled as the mapping from numeric column names to
values (select_dtypes has already kept only numeric columns upstream).
fillna/replace-inf act on float NaN/inf, which the rational model does not
contain, and are value-preserving here.
-/

/-- Numeric row of a normalized DataFrame: column name to value. -/
abbrev NumRow := List (String × ℚ)

/-- Column drop of the exclude list (only "timestamp") from a numeric row. -/
def dropExcluded (row : NumRow) : NumRow :=
  row.filter (fun kv => kv.1 ≠ "timestamp")

/-- Step of prepare_for_ml at inference: append the registered columns that
the row lacks, with value 0 (pandas adds new columns at the end). -/
def addMissingCols (row : NumRow) (cols : List String) : NumRow :=
  row ++ (cols.filter (fun c => !(row.map Prod.fst).contains c)).map (fun c => (c, 0))

/-- LogPreprocessor.prepare_for_ml with training=False on one row:
drop excluded columns; when a feature-column list is registered and truthy
(Python: `if self.feature_columns:`), add registered-but-missing columns as
0 and reindex to the registered list, dropping extra columns; otherwise the
row passes through unchanged. -/
def prepare_for_ml_row (feature_columns : Option (List String)) (row : NumRow) : List ℚ :=
  let numeric := dropExcluded row
  match feature_columns with
  | some cols =>
      if cols.isEmpty then numeric.map Prod.snd
      else
        let filled := addMissingCols numeric cols
        cols.map (fun c => (alookup filled c).getD 0)
  | none => numeric.map Prod.snd

/-
Config (src/config.py) and AlertManager severity mapping
(src/alerts/alert_manager.py).
-/

/-- Config.HIGH_SEVERITY_THRESHOLD default -/
def HIGH_SEVERITY_THRESHOLD : ℚ := 85/100

/-- Config.MEDIUM_SEVERITY_THRESHOLD default -/
def MEDIUM_SEVERITY_THRESHOLD : ℚ := 65/100

/-- Config.CONFIDENCE_THRESHOLD default -/
def CONFIDENCE_THRESHOLD : ℚ := 7/10

/-- AlertSeverity enum -/
inductive AlertSeverity where
  | low
  | medium
  | high
  | critical
deriving DecidableEq

/-- AlertSeverity.value strings -/
def AlertSeverity.value : AlertSeverity → String
  | .low => "low"
  | .medium => "medium"
  | .high => "high"
  | .critical => "critical"

/-- AlertManager._calculate_severity over the confidence taken from
threat_info (threat_info.get('confidence', 0.0)). -/
def calculate_severity (confidence : ℚ) : AlertSeverity :=
  if confidence ≥ HIGH_SEVERITY_THRESHOLD then
    (if confidence ≥ 95/100 then .critical else .high)
  else if confidence ≥ MEDIUM_SEVERITY_THRESHOLD then .medium
  else .low

/-
ThreatDetector (src/ml_detection/threat_detector.py).  The trained
scikit-learn model is external: its per-row outputs are fields of the
detector record.  predict/predict_proba guard on is_trained before any
model call.
-/

/-- ThreatDetector state: the is_trained flag and the external model's
behaviour (predictions and class probabilities per input batch). -/
structure ThreatDetector where
  is_trained : Bool
  modelPredict : List (List ℚ) → List ℕ
  modelProba : List (List ℚ) → List (ℚ × ℚ)

/-- ThreatDetector.predict: all-normal (0) predictions when untrained. -/
def ThreatDetector.predict (d : ThreatDetector) (X : List (List ℚ)) : List ℕ :=
  if d.is_trained then d.modelPredict X
  else List.replicate X.length 0

/-- ThreatDetector.predict_proba: the neutral pair (0.5, 0.5) for every row
when untrained (np.array([[0.5, 0.5]] * len(X))). -/
def ThreatDetector.predict_proba (d : ThreatDetector) (X : List (List ℚ)) : List (ℚ × ℚ) :=
  if d.is_trained then d.modelProba X
  else List.replicate X.length (1/2, 1/2)

/-- One entry of the ThreatDetector.detect_threats result list; the index
field is optional because generate_batch_alerts reads it with
threat_result.get('index', i). -/
structure ThreatResult where
  index : Option ℕ := none
  is_threat : Bool := false
  confidence : ℚ := 0
  prediction : ℕ := 0
  exceeds_threshold : Bool := false

/-- ThreatDetector.detect_threats: one result per input row, confidence is
the probability of the suspicious class (row 1 of predict_proba); sklearn
returns one output row per sample, so the positional indexing is modelled
with a getD that is never out of range on those outputs. -/
def ThreatDetector.detect_threats (d : ThreatDetector) (X : List (List ℚ))
    (threshold : ℚ := CONFIDENCE_THRESHOLD) : List ThreatResult :=
  let predictions := d.predict X
  let probabilities := d.predict_proba X
  (List.range X.length).map (fun i =>
    let threat_prob := (probabilities.getD i (0, 0)).2
    { index := some i
      is_threat := predictions.getD i 0 = 1
      confidence := threat_prob
      prediction := predictions.getD i 0
      exceeds_threshold := threat_prob ≥ threshold })

/-
AlertManager (src/alerts/alert_manager.py).  datetime.utcnow() readings are
inputs (the now arguments); notification distribution is outbound I/O with
no effect on the manager state and is not part of the state transition.
-/

/-- Decimal rendering of a natural number, the embedding of Python
str(int) as used by the alert-id f-string. -/
def natStr (n : ℕ) : String :=
  if n = 0 then "0" else ⟨((Nat.digits 10 n).map Nat.digitChar).reverse⟩

/-- One alert record as built by AlertManager.generate_alert; the
acknowledged_at / resolved_at / resolution_notes keys exist only once the
corresponding transition ran, hence Option. -/
structure Alert where
  alert_id : String
  timestamp : String
  severity : AlertSeverity
  confidence : ℚ
  source : Value
  event_timestamp : Value
  description : String
  recommendations : List String
  event_data : RawEvent
  threat_info : ThreatResult
  status : String
  acknowledged_at : Option String := none
  resolved_at : Option String := none
  resolution_notes : Option String := none

/-- AlertManager state: the alert history and the per-severity counters. -/
structure AlertManager where
  alert_history : List Alert := []
  count_low : ℕ := 0
  count_medium : ℕ := 0
  count_high : ℕ := 0
  count_critical : ℕ := 0

/-- Increment of the per-severity counter (self.alert_count[severity.value] += 1). -/
def AlertManager.bumpCount (m : AlertManager) : AlertSeverity → AlertManager
  | .low => { m with count_low := m.count_low + 1 }
  | .medium => { m with count_medium := m.count_medium + 1 }
  | .high => { m with count_high := m.count_high + 1 }
  | .critical => { m with count_critical := m.count_critical + 1 }

/-- Local unique_str of AlertManager._generate_alert_id: the current utc
timestamp joined by an underscore to the history length. -/
def alertUniqueStr (now : String) (n : ℕ) : String :=
  now ++ "_" ++ natStr n

/-- AlertManager._generate_alert_id: the first 12 hex digits of the md5
digest of unique_str. -/
def generate_alert_id (ext : PyExt) (now : String) (m : AlertManager) : String :=
  (ext.md5hex (alertUniqueStr now m.alert_history.length)).take 12

/-- AlertManager._generate_description (the percentage is float-formatted
externally via fmt1f below). -/
def generate_description (ext : PyExt) (fmt1f : ℚ → String)
    (event_data : RawEvent) (threat_info : ThreatResult) : String :=
  let source := pyGet event_data "source" (.str "unknown")
  let confidence := threat_info.confidence * 100
  let d := "Potential security threat detected from " ++ pyStr ext source ++
    " with " ++ fmt1f confidence ++ "% confidence. "
  let d := if (alookup event_data "activity").isSome then
      d ++ "Activity: " ++ pyStr ext (pyGet event_data "activity" .null) ++ ". "
    else d
  if (alookup event_data "ip_address").isSome then
    d ++ "Source IP: " ++ pyStr ext (pyGet event_data "ip_address" .null) ++ ". "
  else d

/-- AlertManager._generate_recommendations (threat_info is unused there). -/
def generate_recommendations : AlertSeverity → List String
  | .high | .critical =>
      ["Immediately investigate this event",
       "Review all recent activities from this source",
       "Consider blocking the source IP address",
       "Check for any successful unauthorized access"]
  | .medium =>
      ["Review this event during next security review",
       "Monitor the source for additional suspicious activity",
       "Verify user identity if applicable"]
  | .low =>
      ["Log for future analysis",
       "Monitor for pattern escalation"]

/-- AlertManager.generate_alert: severity is computed from the confidence
when not supplied; the alert is appended to the history and the severity
counter bumped.  Every operation in the try block is total here, so the
except branch (empty dict) is unreachable and the built alert is returned. -/
def AlertManager.generate_alert (m : AlertManager) (ext : PyExt) (fmt1f : ℚ → String)
    (now : String) (event_data : RawEvent) (threat_info : ThreatResult)
    (severity : Option AlertSeverity) : Alert × AlertManager :=
  let sev := severity.getD (calculate_severity threat_info.confidence)
  let alert : Alert :=
    { alert_id := generate_alert_id ext now m
      timestamp := now
      severity := sev
      confidence := threat_info.confidence
      source := pyGet event_data "source" (.str "unknown")
      event_timestamp := pyGet event_data "timestamp" (.str "")
      description := generate_description ext fmt1f event_data threat_info
      recommendations := generate_recommendations sev
      event_data := event_data
      threat_info := threat_info
      status := "open" }
  (alert, AlertManager.bumpCount { m with alert_history := m.alert_history ++ [alert] } sev)

/-- Loop body of AlertManager.generate_batch_alerts: i is the enumerate
counter; a generated alert is a non-empty dict, hence always truthy and
always appended. -/
def batchLoop (ext : PyExt) (fmt1f : ℚ → String) (now : String) (events : List RawEvent) :
    ℕ → AlertManager → List Alert → List ThreatResult → List Alert × AlertManager
  | _, m, alerts, [] => (alerts, m)
  | i, m, alerts, t :: rest =>
      if t.is_threat || t.exceeds_threshold then
        let event_idx := t.index.getD i
        if event_idx < events.length then
          let p := m.generate_alert ext fmt1f now (events.getD event_idx []) t none
          batchLoop ext fmt1f now events (i + 1) p.2 (alerts ++ [p.1]) rest
        else batchLoop ext fmt1f now events (i + 1) m alerts rest
      else batchLoop ext fmt1f now events (i + 1) m alerts rest

/-- AlertManager.generate_batch_alerts -/
def AlertManager.generate_batch_alerts (m : AlertManager) (ext : PyExt)
    (fmt1f : ℚ → String) (now : String) (events : List RawEvent)
    (threat_results : List ThreatResult) : List Alert × AlertManager :=
  batchLoop ext fmt1f now events 0 m [] threat_results

/-- Update of the first history entry with a matching alert_id, with the
found flag (the Python for loop returns True at the first match). -/
def updateFirst (l : List Alert) (alert_id : String) (f : Alert → Alert) :
    Bool × List Alert :=
  match l with
  | [] => (false, [])
  | a :: rest =>
      if a.alert_id = alert_id then (true, f a :: rest)
      else
        let p := updateFirst rest alert_id f
        (p.1, a :: p.2)

/-- AlertManager.acknowledge_alert: marks the matching alert acknowledged
and stamps acknowledged_at; returns False when no alert matches. -/
def AlertManager.acknowledge_alert (m : AlertManager) (alert_id : String)
    (now : String) : Bool × AlertManager :=
  let p := updateFirst m.alert_history alert_id
    (fun a => { a with status := "acknowledged", acknowledged_at := some now })
  (p.1, { m with alert_history := p.2 })

/-- AlertManager.resolve_alert: marks the matching alert resolved, stamps
resolved_at and overwrites resolution_notes; returns False when no alert
matches. -/
def AlertManager.resolve_alert (m : AlertManager) (alert_id : String)
    (resolution_notes : String) (now : String) : Bool × AlertManager :=
  let p := updateFirst m.alert_history alert_id
    (fun a => { a with status := "resolved", resolved_at := some now,
                       resolution_notes := some resolution_notes })
  (p.1, { m with alert_history := p.2 })

/-- Sequential single-writer run of n generate_alert calls starting from a
fresh manager, the clock reading of call i being ts i. -/
def generateSeq (ext : PyExt) (fmt1f : ℚ → String) (ts : ℕ → String)
    (ev : RawEvent) (ti : ThreatResult) : ℕ → AlertManager
  | 0 => {}
  | n + 1 =>
      ((generateSeq ext fmt1f ts ev ti n).generate_alert ext fmt1f (ts n) ev ti none).2

/-
UnifiedCollector event queue (src/data_collection/unified_collector.py).
queue.Queue(maxsize=10000) with the producer-side guarded put of
_collect_aws_logs / _collect_azure_logs: if not full, put; else drop the
incoming event and log a warning.
-/

/-- Bounded FIFO buffer state (queue.Queue: maxsize and current items,
oldest first). -/
structure EventQueue (α : Type) where
  maxsize : ℕ
  items : List α

/-- queue.Queue.full(): occupancy has reached maxsize (a queue with
maxsize ≤ 0 is never full). -/
def EventQueue.full {α : Type} (q : EventQueue α) : Bool :=
  0 < q.maxsize && q.maxsize ≤ q.items.length

/-- Producer push from the collection threads: non-blocking; when the queue
is full the incoming (newest) event is dropped, otherwise it is enqueued at
the tail. -/
def EventQueue.push {α : Type} (q : EventQueue α) (e : α) : EventQueue α :=
  if q.full then q else { q with items := q.items ++ [e] }

/-- UnifiedCollector.__init__: self.event_queue = queue.Queue(maxsize=10000). -/
def initEventQueue (α : Type) : EventQueue α :=
  { maxsize := 10000, items := [] }

/-- First history entry with a matching alert_id (the alert the Python for
loops of acknowledge_alert / resolve_alert would update). -/
def findAlert (l : List Alert) (alert_id : String) : Option Alert :=
  match l with
  | [] => none
  | a :: rest => if a.alert_id = alert_id then some a else findAlert rest alert_id

/-- Concrete alert used to evaluate the lifecycle operations at closed
inputs. -/
def sampleAlert (status : String) (notes : Option String) : Alert :=
  { alert_id := "id1", timestamp := "t0", severity := .low, confidence := 0,
    source := .null, event_timestamp := .null, description := "",
    recommendations := [], event_data := [], threat_info := {},
    status := status, resolution_notes := notes }

/-- Specification-side description of generate_batch (refinement target,
following the spec text rather than the loop): one entry per
classification result whose is_threat or exceeds_threshold flag is set and
whose carried index (defaulting to the enumeration position) is in range,
paired with the indexed originating event; i is the enumeration position
of the first result. -/
def batchSpecFrom (events : List RawEvent) : ℕ → List ThreatResult → List (ThreatResult × RawEvent)
  | _, [] => []
  | i, t :: rest =>
      if (t.is_threat || t.exceeds_threshold) && decide (t.index.getD i < events.length)
      then (t, events.getD (t.index.getD i) []) :: batchSpecFrom events (i + 1) rest
      else batchSpecFrom events (i + 1) rest

/-- Specification-side batch alerting over a whole result list. -/
def batchSpec (events : List RawEvent) (results : List ThreatResult) :
    List (ThreatResult × RawEvent) :=
  batchSpecFrom events 0 results

/-- Well-formedness of one event field for the sub-extractions that call
.get on it: the field is either absent or a dict (a present non-dict value
makes the corresponding .get raise AttributeError). -/
def goodField (ev : RawEvent) (k : String) : Prop :=
  alookup ev k = none ∨ ∃ l, alookup ev k = some (Value.dict l)

/-
Theorems.
-/

/-- Claim C3: severity assignment is a total deterministic function of the
confidence with thresholds T_med = 0.65 and T_high = 0.85: c < T_med gives
Low, T_med ≤ c < T_high gives Medium, T_high ≤ c < 0.95 gives High and
c ≥ 0.95 gives Critical (the 0.95 cutoff is only reached when c ≥ T_high);
in particular 0.50 maps to Low, 0.70 to Medium, 0.90 to High and 0.97 to
Critical. -/
theorem calculate_severity_thresholds (c : ℚ) :
    (c < 65/100 → calculate_severity c = AlertSeverity.low) ∧
    (65/100 ≤ c → c < 85/100 → calculate_severity c = AlertSeverity.medium) ∧
    (85/100 ≤ c → c < 95/100 → calculate_severity c = AlertSeverity.high) ∧
    (95/100 ≤ c → calculate_severity c = AlertSeverity.critical) ∧
    calculate_severity (50/100) = AlertSeverity.low ∧
    calculate_severity (70/100) = AlertSeverity.medium ∧
    calculate_severity (90/100) = AlertSeverity.high ∧
    calculate_severity (97/100) = AlertSeverity.critical := by
  refine ⟨?_, ?_, ?_, ?_, by norm_num [calculate_severity, HIGH_SEVERITY_THRESHOLD,
      MEDIUM_SEVERITY_THRESHOLD], by norm_num [calculate_severity, HIGH_SEVERITY_THRESHOLD,
      MEDIUM_SEVERITY_THRESHOLD], by norm_num [calculate_severity, HIGH_SEVERITY_THRESHOLD,
      MEDIUM_SEVERITY_THRESHOLD], by norm_num [calculate_severity, HIGH_SEVERITY_THRESHOLD,
      MEDIUM_SEVERITY_THRESHOLD]⟩ <;>
    intros <;>
    simp only [calculate_severity, HIGH_SEVERITY_THRESHOLD, MEDIUM_SEVERITY_THRESHOLD] <;>
    split_ifs <;> first | rfl | (exfalso; linarith)

/-- Witness for C3: the Low branch at the concrete confidence 0.5. -/
theorem calculate_severity_thresholds_witness :
    calculate_severity (50/100) = AlertSeverity.low :=
  (calculate_severity_thresholds (50/100)).1 (by norm_num)

/-- Claim C8: for every event whose timestamp field is absent or the empty
string, the extracted temporal features are exactly hour = -1,
day_of_week = -1, is_weekend = 0, is_business_hours = 0, is_night = 0. -/
theorem temporal_features_missing_timestamp (ext : PyExt) (ev : RawEvent)
    (h : alookup ev "timestamp" = none ∨ alookup ev "timestamp" = some (Value.str "")) :
    extract_temporal_features ext ev =
      [("hour", Value.num (-1)), ("day_of_week", Value.num (-1)),
       ("is_weekend", Value.num 0), ("is_business_hours", Value.num 0),
       ("is_night", Value.num 0)] := by
  unfold extract_temporal_features pyGet
  rcases h with h | h <;> rw [h] <;> rfl

/-- Witness for C8: an event with no timestamp field. -/
theorem temporal_features_missing_timestamp_witness :
    extract_temporal_features extDefault [] =
      [("hour", Value.num (-1)), ("day_of_week", Value.num (-1)),
       ("is_weekend", Value.num 0), ("is_business_hours", Value.num 0),
       ("is_night", Value.num 0)] :=
  temporal_features_missing_timestamp extDefault [] (Or.inl rfl)

/-- Unfolding equation of alookup on a cons cell. -/
theorem alookup_cons {α : Type} (p : String × α) (l : List (String × α)) (k : String) :
    alookup (p :: l) k = if p.1 = k then some p.2 else alookup l k := by
  obtain ⟨k', v⟩ := p
  rfl

/-- Lookup in an appended association list when the left part hits. -/
theorem alookup_append_of_some {α : Type} {l1 : List (String × α)} (l2 : List (String × α))
    {k : String} {v : α} (h : alookup l1 k = some v) : alookup (l1 ++ l2) k = some v := by
  induction l1 with
  | nil => simp [alookup] at h
  | cons p rest ih =>
      rw [List.cons_append, alookup_cons] at *
      by_cases hk : p.1 = k
      · simpa [hk] using h
      · simp only [hk, if_false] at h ⊢
        exact ih h

/-- Lookup in an appended association list when the left part misses. -/
theorem alookup_append_of_none {α : Type} {l1 : List (String × α)} (l2 : List (String × α))
    {k : String} (h : alookup l1 k = none) : alookup (l1 ++ l2) k = alookup l2 k := by
  induction l1 with
  | nil => rfl
  | cons p rest ih =>
      rw [List.cons_append, alookup_cons] at *
      by_cases hk : p.1 = k
      · simp [hk] at h
      · simp only [hk, if_false] at h ⊢
        exact ih h

/-- Missing lookup agrees with key-list non-membership. -/
theorem alookup_eq_none_iff_contains {α : Type} (l : List (String × α)) (k : String) :
    alookup l k = none ↔ (l.map Prod.fst).contains k = false := by
  induction l with
  | nil => simp [alookup]
  | cons p rest ih =>
      rw [alookup_cons, List.map_cons, List.contains_cons]
      by_cases hk : p.1 = k
      · subst hk
        simp
      · have hkk : (k == p.1) = false := by
          simp only [beq_eq_false_iff_ne, ne_eq]
          exact fun hkk => hk hkk.symm
        simp [hk, hkk, ih]

/-- Lookup in the zero-filled columns appended by addMissingCols. -/
theorem alookup_filter_zero (cs : List String) (p : String → Bool) (k : String)
    (hmem : k ∈ cs) (hp : p k = true) :
    alookup ((cs.filter p).map (fun c => (c, (0 : ℚ)))) k = some 0 := by
  induction cs with
  | nil => cases hmem
  | cons c rest ih =>
      rcases List.mem_cons.mp hmem with rfl | hmem'
      · rw [List.filter_cons_of_pos hp, List.map_cons, alookup_cons]
        simp
      · by_cases hc : p c
        · rw [List.filter_cons_of_pos hc, List.map_cons, alookup_cons]
          by_cases hck : c = k
          · simp [hck]
          · simp only [hck, if_false]
            exact ih hmem'
        · rw [List.filter_cons_of_neg (by simpa using hc)]
          exact ih hmem'

/-- Counterexample to claim C2 as stated: with an empty registered
feature-column list (Python-falsy, so the reconciliation branch is
skipped), a produced name absent from the registry is not dropped — the
produced row passes through instead of becoming the empty vector. -/
theorem prepare_for_ml_empty_registry_counterexample :
    prepare_for_ml_row (some []) [("d", (9 : ℚ))] = [9] ∧
    prepare_for_ml_row (some []) [("d", (9 : ℚ))] ≠ ([] : List ℚ) := by
  refine ⟨rfl, ?_⟩
  decide

/-- Claim C2 (amended: the registered feature-column list is non-empty,
which is the only kind the training path ever stores — an empty list is
Python-falsy and disables reconciliation): inference-time reconciliation
outputs the values in exactly the registered order, inserting 0 for
registered names the produced row lacks and dropping produced names not in
the registry; in particular registry [a,b,c] with produced row
(a=5, c=7, d=9) yields [5, 0, 7]. -/
theorem prepare_for_ml_reconciliation (cols : List String) (row : NumRow)
    (h : cols ≠ []) :
    prepare_for_ml_row (some cols) row =
      cols.map (fun c => (alookup (dropExcluded row) c).getD 0) ∧
    prepare_for_ml_row (some ["a", "b", "c"])
      [("a", (5 : ℚ)), ("c", (7 : ℚ)), ("d", (9 : ℚ))] = [5, 0, 7] := by
  constructor
  · have hne : cols.isEmpty = false := by
      cases cols with
      | nil => exact absurd rfl h
      | cons a t => rfl
    have step : prepare_for_ml_row (some cols) row =
        (if cols.isEmpty = true then (dropExcluded row).map Prod.snd
         else cols.map (fun c =>
           (alookup (addMissingCols (dropExcluded row) cols) c).getD 0)) := rfl
    rw [step, hne]
    simp only [Bool.false_eq_true, if_false]
    apply List.map_congr_left
    intro c hc
    unfold addMissingCols
    cases hv : alookup (dropExcluded row) c with
    | some v => rw [alookup_append_of_some _ hv]
    | none =>
        rw [alookup_append_of_none _ hv,
          alookup_filter_zero _ _ _ hc
            (by
              have hcf := (alookup_eq_none_iff_contains (dropExcluded row) c).mp hv
              simp only [hcf, Bool.not_false])]
        rfl
  · decide

/-- Witness for C2: the concrete reconciliation of registry [a,b,c]. -/
theorem prepare_for_ml_reconciliation_witness :
    prepare_for_ml_row (some ["a", "b", "c"])
      [("a", (5 : ℚ)), ("c", (7 : ℚ)), ("d", (9 : ℚ))] = [5, 0, 7] :=
  (prepare_for_ml_reconciliation ["a", "b", "c"]
    [("a", 5), ("c", 7), ("d", 9)] (by decide)).2

/-- Claim C6: when the classifier is untrained, predict_proba returns the
neutral probability 0.5 (for the suspicious class) for every input row and
never raises (it is total and takes the guard branch before any model
call), so every downstream detection result carries confidence 0.5 and the
severity mapping yields Low for such rows. -/
theorem predict_proba_untrained_neutral (d : ThreatDetector) (X : List (List ℚ))
    (h : d.is_trained = false) :
    d.predict_proba X = List.replicate X.length (1/2, 1/2) ∧
    ∀ r ∈ d.detect_threats X CONFIDENCE_THRESHOLD,
      r.confidence = 1/2 ∧ calculate_severity r.confidence = AlertSeverity.low := by
  have hp : d.predict_proba X = List.replicate X.length (1/2, 1/2) := by
    unfold ThreatDetector.predict_proba
    rw [h]
    simp
  refine ⟨hp, ?_⟩
  intro r hr
  unfold ThreatDetector.detect_threats at hr
  rw [hp] at hr
  simp only [List.mem_map, List.mem_range] at hr
  obtain ⟨i, hi, rfl⟩ := hr
  have hval : ((List.replicate X.length ((1:ℚ)/2, (1:ℚ)/2)).getD i (0, 0)).2 = 1/2 := by
    simp [List.getD, List.getElem?_replicate, hi]
  constructor
  · exact hval
  · show calculate_severity
        (((List.replicate X.length ((1:ℚ)/2, (1:ℚ)/2)).getD i (0, 0)).2) = AlertSeverity.low
    rw [hval]
    norm_num [calculate_severity, HIGH_SEVERITY_THRESHOLD, MEDIUM_SEVERITY_THRESHOLD]

/-- Witness for C6: a concrete untrained detector on one input row. -/
theorem predict_proba_untrained_neutral_witness :
    ThreatDetector.predict_proba ⟨false, fun _ => [], fun _ => []⟩ [[3]] =
      List.replicate 1 (1/2, 1/2) :=
  (predict_proba_untrained_neutral ⟨false, fun _ => [], fun _ => []⟩ [[3]] rfl).1

/-- Maxsize is unchanged by a push. -/
theorem EventQueue.push_maxsize {α : Type} (q : EventQueue α) (e : α) :
    (q.push e).maxsize = q.maxsize := by
  unfold EventQueue.push
  split <;> rfl

/-- Push on a full bounded queue drops the incoming event. -/
theorem EventQueue.push_full {α : Type} (q : EventQueue α) (e : α)
    (h : q.full = true) : q.push e = q := by
  unfold EventQueue.push
  rw [h]
  rfl

/-- Push on a non-full queue appends at the tail. -/
theorem EventQueue.push_not_full {α : Type} (q : EventQueue α) (e : α)
    (h : q.full = false) : (q.push e).items = q.items ++ [e] := by
  unfold EventQueue.push
  rw [h]
  rfl

/-- Folding pushes over a bounded queue that receives exactly one event
more than its remaining room keeps everything but the last event. -/
theorem foldl_push_fills {α : Type} :
    ∀ (es : List α) (q : EventQueue α), 0 < q.maxsize →
      q.items.length ≤ q.maxsize → q.items.length + es.length = q.maxsize + 1 →
      (es.foldl EventQueue.push q).items = q.items ++ es.dropLast := by
  intro es
  induction es with
  | nil =>
      intro q h1 h2 h3
      exfalso
      simp at h3
      omega
  | cons e rest ih =>
      intro q h1 h2 h3
      simp only [List.foldl_cons]
      by_cases hf : q.items.length < q.maxsize
      · have hfull : q.full = false := by
          unfold EventQueue.full
          simp only [Bool.and_eq_false_iff, decide_eq_false_iff_not, not_le, not_lt]
          right
          exact hf
        cases rest with
        | nil =>
            exfalso
            simp at h3
            omega
        | cons r rs =>
            have hitems := EventQueue.push_not_full q e hfull
            have hmax := EventQueue.push_maxsize q e
            rw [ih (q.push e) (by omega) (by rw [hitems, hmax]; simp; omega)
              (by rw [hitems, hmax]; simp at h3 ⊢; omega)]
            rw [hitems]
            simp [List.dropLast]
      · have hlen : q.items.length = q.maxsize := by omega
        have hfull : q.full = true := by
          unfold EventQueue.full
          simp only [Bool.and_eq_true, decide_eq_true_eq]
          omega
        rw [EventQueue.push_full q e hfull]
        have hrest : rest = [] := by
          have : rest.length = 0 := by simp at h3; omega
          exact List.length_eq_zero.mp this
        subst hrest
        simp

/-- Claim C4: the ingestion buffer is bounded with capacity C (the
UnifiedCollector initialises it with the default 10 000); the producer-side
push is a total function (never blocks); pushing C+1 events onto an empty
buffer leaves exactly the first C of them — size C, the most recently
pushed event dropped — and a push never takes a bounded buffer above its
capacity. -/
theorem buffer_drop_newest_policy {α : Type} (C : ℕ) (hC : 0 < C) (es : List α)
    (hlen : es.length = C + 1) :
    (es.foldl EventQueue.push ⟨C, []⟩).items = es.dropLast ∧
    (es.foldl EventQueue.push ⟨C, []⟩).items.length = C ∧
    (∀ (q : EventQueue α) (e : α), 0 < q.maxsize → q.items.length ≤ q.maxsize →
      (q.push e).items.length ≤ q.maxsize) ∧
    (initEventQueue α).maxsize = 10000 := by
  have hfill : (es.foldl EventQueue.push ⟨C, []⟩).items = es.dropLast := by
    have := foldl_push_fills es ⟨C, []⟩ hC (by simp) (by simp [hlen])
    simpa using this
  refine ⟨hfill, ?_, ?_, rfl⟩
  · rw [hfill, List.length_dropLast, hlen]
    rfl
  · intro q e hq hle
    by_cases hf : q.full = true
    · rw [EventQueue.push_full q e hf]
      exact hle
    · rw [EventQueue.push_not_full q e (by simpa using hf)]
      have : ¬(0 < q.maxsize ∧ q.maxsize ≤ q.items.length) := by
        intro hcon
        apply hf
        unfold EventQueue.full
        simp only [Bool.and_eq_true, decide_eq_true_eq]
        exact hcon
      simp only [List.length_append, List.length_cons, List.length_nil]
      omega

/-- Witness for C4: capacity 1, two pushed events, the second dropped. -/
theorem buffer_drop_newest_policy_witness :
    (([10, 20] : List ℕ).foldl EventQueue.push ⟨1, []⟩).items = ([10, 20] : List ℕ).dropLast :=
  (buffer_drop_newest_policy 1 (by decide) [10, 20] rfl).1

/-- Unfolding equation of findAlert on a cons cell. -/
theorem findAlert_cons (a : Alert) (l : List Alert) (alert_id : String) :
    findAlert (a :: l) alert_id =
      if a.alert_id = alert_id then some a else findAlert l alert_id := rfl

/-- An updateFirst with no matching entry reports false and leaves the
history unchanged. -/
theorem updateFirst_of_none (l : List Alert) (alert_id : String) (f : Alert → Alert)
    (h : findAlert l alert_id = none) : updateFirst l alert_id f = (false, l) := by
  induction l with
  | nil => rfl
  | cons a rest ih =>
      rw [findAlert_cons] at h
      unfold updateFirst
      by_cases ha : a.alert_id = alert_id
      · simp [ha] at h
      · simp only [ha, if_false] at h ⊢
        rw [ih h]

/-- An updateFirst with a matching entry reports true, and — provided the
update preserves the alert id — the subsequent lookup sees the updated
alert. -/
theorem updateFirst_of_some (l : List Alert) (alert_id : String) (f : Alert → Alert)
    (a : Alert) (h : findAlert l alert_id = some a)
    (hf : (f a).alert_id = a.alert_id) :
    (updateFirst l alert_id f).1 = true ∧
    findAlert (updateFirst l alert_id f).2 alert_id = some (f a) := by
  induction l with
  | nil => cases h
  | cons b rest ih =>
      rw [findAlert_cons] at h
      unfold updateFirst
      by_cases hb : b.alert_id = alert_id
      · rw [if_pos hb] at h ⊢
        obtain rfl : b = a := by injection h
        refine ⟨rfl, ?_⟩
        show findAlert (f b :: rest) alert_id = some (f b)
        rw [findAlert_cons, hf, if_pos hb]
      · rw [if_neg hb] at h ⊢
        obtain ⟨h1, h2⟩ := ih h
        constructor
        · show (updateFirst rest alert_id f).1 = true
          exact h1
        · show findAlert (b :: (updateFirst rest alert_id f).2) alert_id = some (f a)
          rw [findAlert_cons, if_neg hb]
          exact h2

/-- Claim C7: acknowledge and resolve return false for any id not present
in the alert history (and raise no exception — both are total functions);
for a present alert with initial status open, acknowledge then resolve both
return true and leave the alert with status resolved, resolution_notes
"fixed", and both the acknowledgement and resolution timestamps set. -/
theorem alert_lifecycle_ack_resolve :
    (∀ (m : AlertManager) (alert_id now : String),
      findAlert m.alert_history alert_id = none →
      (m.acknowledge_alert alert_id now).1 = false) ∧
    (∀ (m : AlertManager) (alert_id notes now : String),
      findAlert m.alert_history alert_id = none →
      (m.resolve_alert alert_id notes now).1 = false) ∧
    (∀ (m : AlertManager) (alert_id t1 t2 : String) (a : Alert),
      findAlert m.alert_history alert_id = some a → a.status = "open" →
      (m.acknowledge_alert alert_id t1).1 = true ∧
      ((m.acknowledge_alert alert_id t1).2.resolve_alert alert_id "fixed" t2).1 = true ∧
      findAlert
        ((m.acknowledge_alert alert_id t1).2.resolve_alert alert_id "fixed" t2).2.alert_history
        alert_id =
        some { a with status := "resolved", acknowledged_at := some t1,
                      resolved_at := some t2, resolution_notes := some "fixed" }) := by
  refine ⟨?_, ?_, ?_⟩
  · intro m alert_id now h
    show (updateFirst m.alert_history alert_id
      (fun a => { a with status := "acknowledged", acknowledged_at := some now })).1 = false
    rw [updateFirst_of_none _ _ _ h]
  · intro m alert_id notes now h
    show (updateFirst m.alert_history alert_id
      (fun a => { a with status := "resolved", resolved_at := some now,
                         resolution_notes := some notes })).1 = false
    rw [updateFirst_of_none _ _ _ h]
  · intro m alert_id t1 t2 a hfind _
    have h1 := updateFirst_of_some m.alert_history alert_id
      (fun x => { x with status := "acknowledged", acknowledged_at := some t1 })
      a hfind rfl
    have h2 := updateFirst_of_some
      (updateFirst m.alert_history alert_id
        (fun x => { x with status := "acknowledged", acknowledged_at := some t1 })).2
      alert_id
      (fun x => { x with status := "resolved", resolved_at := some t2,
                         resolution_notes := some "fixed" })
      { a with status := "acknowledged", acknowledged_at := some t1 }
      h1.2 rfl
    exact ⟨h1.1, h2.1, h2.2⟩

/-- Witness for C7: the unknown-id branch on an empty manager and the
open-alert branch on a one-alert manager. -/
theorem alert_lifecycle_ack_resolve_witness :
    (AlertManager.acknowledge_alert {} "unknown" "t").1 = false ∧
    (AlertManager.acknowledge_alert
      { alert_history := [sampleAlert "open" none] } "id1" "t1").1 = true :=
  ⟨alert_lifecycle_ack_resolve.1 {} "unknown" "t" rfl,
   (alert_lifecycle_ack_resolve.2.2 { alert_history := [sampleAlert "open" none] }
     "id1" "t1" "t2" (sampleAlert "open" none) rfl rfl).1⟩

/-- Claim C10 (implicit): the resolved status is not terminal — for every
alert present in the history, whatever its current status (including
resolved), acknowledge returns true and sets status acknowledged, and
resolve returns true, sets status resolved and overwrites any prior
resolution_notes; no transition is rejected for an existing id. -/
theorem resolved_not_terminal :
    ∀ (m : AlertManager) (alert_id t notes : String) (a : Alert),
      findAlert m.alert_history alert_id = some a →
      ((m.acknowledge_alert alert_id t).1 = true ∧
       findAlert (m.acknowledge_alert alert_id t).2.alert_history alert_id =
         some { a with status := "acknowledged", acknowledged_at := some t }) ∧
      ((m.resolve_alert alert_id notes t).1 = true ∧
       findAlert (m.resolve_alert alert_id notes t).2.alert_history alert_id =
         some { a with status := "resolved", resolved_at := some t,
                       resolution_notes := some notes }) := by
  intro m alert_id t notes a hfind
  have h1 := updateFirst_of_some m.alert_history alert_id
    (fun x => { x with status := "acknowledged", acknowledged_at := some t })
    a hfind rfl
  have h2 := updateFirst_of_some m.alert_history alert_id
    (fun x => { x with status := "resolved", resolved_at := some t,
                       resolution_notes := some notes })
    a hfind rfl
  exact ⟨⟨h1.1, h1.2⟩, ⟨h2.1, h2.2⟩⟩

/-- Witness for C10: acknowledging an already-resolved alert succeeds and
re-resolving it overwrites the notes. -/
theorem resolved_not_terminal_witness :
    (AlertManager.acknowledge_alert
      { alert_history := [sampleAlert "resolved" (some "old")] } "id1" "t9").1 = true ∧
    findAlert
      (AlertManager.resolve_alert
        { alert_history := [sampleAlert "resolved" (some "old")] } "id1" "new" "t9").2.alert_history
      "id1" =
      some { sampleAlert "resolved" (some "old") with
              status := "resolved", resolved_at := some "t9",
              resolution_notes := some "new" } :=
  ⟨((resolved_not_terminal { alert_history := [sampleAlert "resolved" (some "old")] }
      "id1" "t9" "new" (sampleAlert "resolved" (some "old")) rfl).1).1,
   ((resolved_not_terminal { alert_history := [sampleAlert "resolved" (some "old")] }
      "id1" "t9" "new" (sampleAlert "resolved" (some "old")) rfl).2).2⟩

/-- The batch loop produces exactly the spec-side result/event pairs, in
order, after the already-accumulated alerts. -/
theorem batchLoop_map (ext : PyExt) (fmt1f : ℚ → String) (now : String)
    (events : List RawEvent) :
    ∀ (results : List ThreatResult) (i : ℕ) (m : AlertManager) (acc : List Alert),
      (batchLoop ext fmt1f now events i m acc results).1.map
          (fun a => (a.threat_info, a.event_data)) =
        acc.map (fun a => (a.threat_info, a.event_data)) ++ batchSpecFrom events i results := by
  intro results
  induction results with
  | nil =>
      intro i m acc
      simp [batchLoop, batchSpecFrom]
  | cons t rest ih =>
      intro i m acc
      unfold batchLoop batchSpecFrom
      by_cases hflag : (t.is_threat || t.exceeds_threshold) = true
      · by_cases hidx : t.index.getD i < events.length
        · rw [if_pos hflag, if_pos hidx, if_pos (by simp [hflag, hidx])]
          rw [ih]
          simp only [List.map_append, List.map_cons, List.map_nil, List.append_assoc,
            List.singleton_append, List.nil_append]
          rfl
        · rw [if_pos hflag, if_neg hidx, if_neg (by simp [hidx])]
          exact ih (i + 1) m acc
      · have hflag' : (t.is_threat || t.exceeds_threshold) = false :=
          Bool.eq_false_iff.mpr hflag
        rw [if_neg hflag, if_neg (by simp [hflag'])]
        exact ih (i + 1) m acc

/-- Claim C5: generate_batch creates an alert for a classification result
exactly when its is_threat or exceeds_threshold flag is set and its
carried index is in range for the events list (an out-of-range index skips
only that result, the rest of the batch proceeds), each alert being
attributed to the indexed event; for three results with result 0
is_threat, result 1 neither flag and result 2 exceeds_threshold, exactly
two alerts are returned, attributed to events 0 and 2. -/
theorem generate_batch_alerts_spec (ext : PyExt) (fmt1f : ℚ → String) (now : String)
    (m : AlertManager) (events : List RawEvent) (results : List ThreatResult) :
    (m.generate_batch_alerts ext fmt1f now events results).1.map
        (fun a => (a.threat_info, a.event_data)) = batchSpec events results ∧
    (∀ e0 e1 e2 : RawEvent,
      (m.generate_batch_alerts ext fmt1f now [e0, e1, e2]
          [{ index := some 0, is_threat := true }, { index := some 1 },
           { index := some 2, exceeds_threshold := true }]).1.length = 2 ∧
      (m.generate_batch_alerts ext fmt1f now [e0, e1, e2]
          [{ index := some 0, is_threat := true }, { index := some 1 },
           { index := some 2, exceeds_threshold := true }]).1.map
          (fun a => a.event_data) = [e0, e2]) := by
  constructor
  · have h := batchLoop_map ext fmt1f now events results 0 m []
    simpa [AlertManager.generate_batch_alerts, batchSpec] using h
  · intro e0 e1 e2
    have h := batchLoop_map ext fmt1f now [e0, e1, e2]
      [{ index := some 0, is_threat := true }, { index := some 1 },
       { index := some 2, exceeds_threshold := true }] 0 m []
    have hspec : batchSpecFrom [e0, e1, e2] 0
        [{ index := some 0, is_threat := true }, { index := some 1 },
         { index := some 2, exceeds_threshold := true }] =
        [({ index := some 0, is_threat := true }, e0),
         ({ index := some 2, exceeds_threshold := true }, e2)] := by
      simp [batchSpecFrom, List.getD]
    rw [hspec] at h
    simp only [List.map_nil, List.nil_append] at h
    constructor
    · have hlen := congrArg List.length h
      simpa [AlertManager.generate_batch_alerts] using hlen
    · have hsnd := congrArg (List.map Prod.snd) h
      simp only [List.map_map, List.map_cons, List.map_nil] at hsnd
      simpa [AlertManager.generate_batch_alerts, Function.comp] using hsnd

/-- A well-formed field is read by pyGet as some dict (the empty one when
absent). -/
theorem goodField_pyGet (ev : RawEvent) (k : String) (h : goodField ev k) :
    ∃ l, pyGet ev k (.dict []) = Value.dict l := by
  rcases h with h | ⟨l, h⟩
  · exact ⟨[], by simp [pyGet, h]⟩
  · exact ⟨l, by simp [pyGet, h]⟩

/-- Temporal extraction always yields exactly the five temporal feature
names, whichever branch is taken. -/
theorem temporal_keys (ext : PyExt) (ev : RawEvent) :
    (extract_temporal_features ext ev).map Prod.fst =
      ["hour", "day_of_week", "is_weekend", "is_business_hours", "is_night"] := by
  simp only [extract_temporal_features]
  repeat' split
  all_goals rfl

/-- Network extraction, when the message and raw_data fields are absent or
dicts, succeeds and yields exactly the five network feature names. -/
theorem extract_network_features_ok (ext : PyExt) (ev : RawEvent)
    (hm : goodField ev "message") (hr : goodField ev "raw_data") :
    ∃ res, extract_network_features ext ev = Except.ok res ∧
      res.map Prod.fst =
        ["ip_address_hash", "is_private_ip", "ip_reputation_score",
         "is_suspicious_agent", "user_agent_length"] := by
  obtain ⟨ml, hme⟩ := goodField_pyGet ev "message" hm
  obtain ⟨rl, hre⟩ := goodField_pyGet ev "raw_data" hr
  cases h1 : truthy ((alookup ml "ip_address").getD Value.null) <;>
  cases h2 : truthy ((alookup ml "IPAddress").getD Value.null) <;>
  cases h3 : truthy ((alookup rl "ip_address").getD Value.null) <;>
  cases h4 : truthy ((alookup ml "user_agent").getD (Value.str "")) <;>
    (simp only [extract_network_features, hme, hre, vGet, vGetD, pyOr, Bind.bind,
       Except.bind, pure, Except.pure, h1, h2, h3, h4, Bool.false_eq_true, if_true,
       if_false, ite_true, ite_false];
     exact ⟨_, rfl, rfl⟩)

/-- Event extraction, when the message field is absent or a dict, succeeds
and yields exactly the seven event feature names. -/
theorem extract_event_features_ok (ext : PyExt) (ev : RawEvent)
    (hm : goodField ev "message") :
    ∃ res, extract_event_features ext ev = Except.ok res ∧
      res.map Prod.fst =
        ["event_id_hash", "activity_hash", "category_hash", "is_failure",
         "is_success", "identity_hash", "has_identity"] := by
  obtain ⟨ml, hme⟩ := goodField_pyGet ev "message" hm
  cases h1 : truthy (pyGet ev "event_id" (Value.str "")) <;>
  cases h2 : truthy (pyGet ev "activity" (Value.str "")) <;>
  cases h3 : truthy (pyGet ev "category" (Value.str "")) <;>
  cases h4 : truthy (pyGet ev "result_type" Value.null) <;>
  cases h5 : truthy ((alookup ml "ResultType").getD Value.null) <;>
  cases h6 : truthy ((alookup ml "Status").getD Value.null) <;>
  cases h7 : truthy (pyGet ev "identity" (Value.str "")) <;>
    (simp only [extract_event_features, hme, vGet, vGetD, pyOr, Bind.bind,
       Except.bind, pure, Except.pure, h1, h2, h3, h4, h5, h6, h7, Bool.false_eq_true,
       if_true, if_false, ite_true, ite_false];
     exact ⟨_, rfl, rfl⟩)

/-- Counterexample to claim C1 as stated: for the event whose message field
is the (non-dict) string "x", the network sub-extraction raises
AttributeError at message.get, the outer except returns the empty dict,
and the already-computed temporal features are lost together with the
pattern and statistical sub-extractions that never ran — the result
contains no declared feature name such as hour. -/
theorem extract_features_abort_counterexample :
    extract_features extDefault [("message", Value.str "x")] = [] ∧
    "hour" ∉ (extract_features extDefault [("message", Value.str "x")]).map Prod.fst := by
  refine ⟨rfl, ?_⟩
  intro hmem
  rw [show extract_features extDefault [("message", Value.str "x")] = [] from rfl] at hmem
  simp at hmem

/-- Claim C1 (amended): extract_features is a total function (the outer
except catches every raise), and whenever the message and raw_data fields
are absent or mappings — so that no sub-extraction raises — the result
contains every declared feature name, in declaration order; a temporal
failure alone never aborts the other sub-extractions because the temporal
extractor handles it internally (temporal_keys).  However a raise inside
the network or event sub-extraction aborts the whole extraction and yields
the empty mapping (extract_features_abort_counterexample), so sub-extraction
failures are not independent as claimed. -/
theorem extract_features_completeness_amended (ext : PyExt) (ev : RawEvent)
    (hm : goodField ev "message") (hr : goodField ev "raw_data") :
    (extract_features ext ev).map Prod.fst = declaredFeatureNames := by
  obtain ⟨nl, hn, hnk⟩ := extract_network_features_ok ext ev hm hr
  obtain ⟨el, he, hek⟩ := extract_event_features_ok ext ev hm
  have hcore : extractFeaturesCore ext ev = Except.ok
      ([("source", pyGet ev "source" (.str "unknown")),
        ("timestamp", pyGet ev "timestamp" (.str ""))] ++
       extract_temporal_features ext ev ++ nl ++ el ++
       extract_pattern_features ext ev ++ extract_statistical_features ext ev) := by
    simp only [extractFeaturesCore, hn, he, Bind.bind, Except.bind, pure, Except.pure]
  show (match extractFeaturesCore ext ev with
        | .ok f => f
        | .error _ => []).map Prod.fst = declaredFeatureNames
  rw [hcore]
  simp only [List.map_append]
  rw [temporal_keys, hnk, hek]
  rfl

/-- Witness for the amended C1: the empty event has all declared feature
names extracted. -/
theorem extract_features_completeness_amended_witness :
    (extract_features extDefault []).map Prod.fst = declaredFeatureNames :=
  extract_features_completeness_amended extDefault [] (Or.inl rfl) (Or.inl rfl)

/-- Nat.digitChar is injective on decimal digits. -/
theorem digitChar_injOn (a b : ℕ) (ha : a < 10) (hb : b < 10) :
    Nat.digitChar a = Nat.digitChar b → a = b := by
  interval_cases a <;> interval_cases b <;> decide

/-- No decimal digit renders as an underscore. -/
theorem digitChar_ne_underscore (a : ℕ) (ha : a < 10) : Nat.digitChar a ≠ '_' := by
  interval_cases a <;> decide

/-- Mapping digitChar over digit lists is injective. -/
theorem map_digitChar_inj :
    ∀ (l1 l2 : List ℕ), (∀ d ∈ l1, d < 10) → (∀ d ∈ l2, d < 10) →
      l1.map Nat.digitChar = l2.map Nat.digitChar → l1 = l2 := by
  intro l1
  induction l1 with
  | nil =>
      intro l2 _ _ h
      cases l2 with
      | nil => rfl
      | cons b t => simp at h
  | cons a t ih =>
      intro l2 h1 h2 h
      cases l2 with
      | nil => simp at h
      | cons b u =>
          simp only [List.map_cons, List.cons.injEq] at h
          have hab := digitChar_injOn a b (h1 a (List.mem_cons_self a t))
            (h2 b (List.mem_cons_self b u)) h.1
          have htu := ih u (fun d hd => h1 d (List.mem_cons_of_mem a hd))
            (fun d hd => h2 d (List.mem_cons_of_mem b hd)) h.2
          rw [hab, htu]

/-- The decimal rendering of a natural number is injective. -/
theorem natStr_inj (m n : ℕ) (h : natStr m = natStr n) : m = n := by
  unfold natStr at h
  by_cases hm : m = 0 <;> by_cases hn : n = 0
  · rw [hm, hn]
  · exfalso
    rw [if_pos hm, if_neg hn] at h
    have hd := congrArg String.data h
    have hrev : (Nat.digits 10 n).map Nat.digitChar = ['0'] := by
      have : ((Nat.digits 10 n).map Nat.digitChar).reverse = ['0'] := hd.symm
      have := congrArg List.reverse this
      simpa using this
    obtain ⟨d, hds, hdc⟩ : ∃ d, Nat.digits 10 n = [d] ∧ Nat.digitChar d = '0' := by
      cases hds : Nat.digits 10 n with
      | nil => rw [hds] at hrev; simp at hrev
      | cons d u =>
          rw [hds] at hrev
          cases u with
          | nil => simp only [List.map_cons, List.map_nil] at hrev; exact ⟨d, rfl, by injection hrev⟩
          | cons e w => simp at hrev
    have hd0 : d = 0 := by
      apply digitChar_injOn d 0
      · exact Nat.digits_lt_base (by norm_num) (by rw [hds]; exact List.mem_cons_self d [])
      · norm_num
      · rw [hdc]; rfl
    have : n = Nat.ofDigits 10 (Nat.digits 10 n) := (Nat.ofDigits_digits 10 n).symm
    rw [hds, hd0] at this
    simp [Nat.ofDigits] at this
    exact hn this
  · exfalso
    rw [if_neg hm, if_pos hn] at h
    have hd := congrArg String.data h
    have hrev : (Nat.digits 10 m).map Nat.digitChar = ['0'] := by
      have : ((Nat.digits 10 m).map Nat.digitChar).reverse = ['0'] := hd
      have := congrArg List.reverse this
      simpa using this
    obtain ⟨d, hds, hdc⟩ : ∃ d, Nat.digits 10 m = [d] ∧ Nat.digitChar d = '0' := by
      cases hds : Nat.digits 10 m with
      | nil => rw [hds] at hrev; simp at hrev
      | cons d u =>
          rw [hds] at hrev
          cases u with
          | nil => simp only [List.map_cons, List.map_nil] at hrev; exact ⟨d, rfl, by injection hrev⟩
          | cons e w => simp at hrev
    have hd0 : d = 0 := by
      apply digitChar_injOn d 0
      · exact Nat.digits_lt_base (by norm_num) (by rw [hds]; exact List.mem_cons_self d [])
      · norm_num
      · rw [hdc]; rfl
    have : m = Nat.ofDigits 10 (Nat.digits 10 m) := (Nat.ofDigits_digits 10 m).symm
    rw [hds, hd0] at this
    simp [Nat.ofDigits] at this
    exact hm this
  · rw [if_neg hm, if_neg hn] at h
    have hd := congrArg String.data h
    have hrev := congrArg List.reverse hd
    simp only [List.reverse_reverse] at hrev
    have hds := map_digitChar_inj _ _
      (fun d hdm => Nat.digits_lt_base (by norm_num) hdm)
      (fun d hdn => Nat.digits_lt_base (by norm_num) hdn) hrev
    have := congrArg (Nat.ofDigits 10) hds
    rwa [Nat.ofDigits_digits, Nat.ofDigits_digits] at this

/-- The decimal rendering never contains an underscore. -/
theorem natStr_no_underscore (n : ℕ) : '_' ∉ (natStr n).data := by
  unfold natStr
  split
  · decide
  · intro hmem
    rw [List.mem_reverse] at hmem
    obtain ⟨d, hd, hdc⟩ := List.mem_map.mp hmem
    exact digitChar_ne_underscore d (Nat.digits_lt_base (by norm_num) hd) hdc

/-- Splitting two lists around an underscore whose prefixes are
underscore-free is unambiguous. -/
theorem underscore_split :
    ∀ (c d a b : List Char), '_' ∉ c → '_' ∉ d →
      c ++ '_' :: a = d ++ '_' :: b → c = d ∧ a = b := by
  intro c
  induction c with
  | nil =>
      intro d a b _ hd h
      cases d with
      | nil =>
          simp only [List.nil_append, List.cons.injEq] at h
          exact ⟨rfl, h.2⟩
      | cons y d' =>
          simp only [List.nil_append, List.cons_append, List.cons.injEq] at h
          exfalso
          apply hd
          rw [← h.1]
          exact List.mem_cons_self '_' d'
  | cons x c' ih =>
      intro d a b hc hd h
      cases d with
      | nil =>
          simp only [List.nil_append, List.cons_append, List.cons.injEq] at h
          exfalso
          apply hc
          rw [h.1]
          exact List.mem_cons_self '_' c'
      | cons y d' =>
          simp only [List.cons_append, List.cons.injEq] at h
          have hxy : x = y := h.1
          have hc' : '_' ∉ c' := fun hm => hc (List.mem_cons_of_mem x hm)
          have hd' : '_' ∉ d' := fun hm => hd (List.mem_cons_of_mem y hm)
          obtain ⟨h1, h2⟩ := ih d' a b hc' hd' h.2
          exact ⟨by rw [hxy, h1], h2⟩

/-- The alert-id pre-image (timestamp, underscore, counter) is injective
when timestamps are underscore-free. -/
theorem alertUniqueStr_inj (t1 t2 : String) (n1 n2 : ℕ)
    (h1 : '_' ∉ t1.data) (h2 : '_' ∉ t2.data)
    (h : alertUniqueStr t1 n1 = alertUniqueStr t2 n2) : t1 = t2 ∧ n1 = n2 := by
  unfold alertUniqueStr at h
  have hd := congrArg String.data h
  simp only [String.data_append] at hd
  have hd' : t1.data ++ '_' :: (natStr n1).data = t2.data ++ '_' :: (natStr n2).data := by
    simpa [List.append_assoc] using hd
  obtain ⟨hts, hns⟩ := underscore_split _ _ _ _ h1 h2 hd'
  exact ⟨String.ext hts, natStr_inj _ _ (String.ext hns)⟩

/-- Bumping a severity counter leaves the history untouched. -/
theorem bumpCount_alert_history (m : AlertManager) (sev : AlertSeverity) :
    (m.bumpCount sev).alert_history = m.alert_history := by
  cases sev <;> rfl

/-- Generating an alert appends exactly that alert to the history. -/
theorem generate_alert_snd_history (m : AlertManager) (ext : PyExt) (fmt1f : ℚ → String)
    (now : String) (ev : RawEvent) (ti : ThreatResult) (sev : Option AlertSeverity) :
    ((m.generate_alert ext fmt1f now ev ti sev).2).alert_history =
      m.alert_history ++ [(m.generate_alert ext fmt1f now ev ti sev).1] := by
  simp only [AlertManager.generate_alert, bumpCount_alert_history]

/-- The id of a freshly generated alert is the hash of the clock reading
joined to the pre-append history length. -/
theorem generate_alert_fst_id (m : AlertManager) (ext : PyExt) (fmt1f : ℚ → String)
    (now : String) (ev : RawEvent) (ti : ThreatResult) (sev : Option AlertSeverity) :
    ((m.generate_alert ext fmt1f now ev ti sev).1).alert_id =
      (ext.md5hex (alertUniqueStr now m.alert_history.length)).take 12 := by
  simp only [AlertManager.generate_alert, generate_alert_id]

/-- After n sequential generate calls, the history carries exactly the n
ids hash(ts i, i) in order. -/
theorem generateSeq_ids (ext : PyExt) (fmt1f : ℚ → String) (ts : ℕ → String)
    (ev : RawEvent) (ti : ThreatResult) :
    ∀ n, (generateSeq ext fmt1f ts ev ti n).alert_history.map (fun a => a.alert_id) =
      (List.range n).map (fun i => (ext.md5hex (alertUniqueStr (ts i) i)).take 12) := by
  intro n
  induction n with
  | zero => rfl
  | succ k ih =>
      have hlen : (generateSeq ext fmt1f ts ev ti k).alert_history.length = k := by
        have := congrArg List.length ih
        simpa using this
      show (((generateSeq ext fmt1f ts ev ti k).generate_alert ext fmt1f (ts k)
          ev ti none).2).alert_history.map (fun a => a.alert_id) = _
      rw [generate_alert_snd_history, List.map_append, ih, List.range_succ,
        List.map_append]
      simp only [List.map_cons, List.map_nil, generate_alert_fst_id, hlen]

/-- Claim C9: a single sequential writer generating n alerts (in
particular n = 10 000) produces pairwise distinct alert ids, each id being
the truncated digest of the creation time joined to the alert's sequence
position in the history; distinctness holds because those pre-image
strings are pairwise distinct (clock readings contain no underscore and
the decimal counter is injective), provided the truncated md5 digest does
not collide on them. -/
theorem sequential_alert_ids_distinct (ext : PyExt) (fmt1f : ℚ → String) (ts : ℕ → String)
    (ev : RawEvent) (ti : ThreatResult) (n : ℕ)
    (hts : ∀ i, '_' ∉ (ts i).data)
    (hhash : ∀ i j, i < n → j < n →
      (ext.md5hex (alertUniqueStr (ts i) i)).take 12 =
        (ext.md5hex (alertUniqueStr (ts j) j)).take 12 →
      alertUniqueStr (ts i) i = alertUniqueStr (ts j) j) :
    ((generateSeq ext fmt1f ts ev ti n).alert_history.map (fun a => a.alert_id)).Nodup ∧
    (generateSeq ext fmt1f ts ev ti n).alert_history.length = n ∧
    (generateSeq ext fmt1f ts ev ti n).alert_history.map (fun a => a.alert_id) =
      (List.range n).map (fun i => (ext.md5hex (alertUniqueStr (ts i) i)).take 12) ∧
    (∀ i j, i < n → j < n →
      alertUniqueStr (ts i) i = alertUniqueStr (ts j) j → i = j) := by
  have hpre : ∀ i j, i < n → j < n →
      alertUniqueStr (ts i) i = alertUniqueStr (ts j) j → i = j := by
    intro i j _ _ h
    exact (alertUniqueStr_inj _ _ _ _ (hts i) (hts j) h).2
  refine ⟨?_, ?_, generateSeq_ids ext fmt1f ts ev ti n, hpre⟩
  · rw [generateSeq_ids]
    apply List.Nodup.map_on ?_ (List.nodup_range n)
    intro i hi j hj hfeq
    rw [List.mem_range] at hi hj
    exact hpre i j hi hj (hhash i j hi hj hfeq)
  · have := congrArg List.length (generateSeq_ids ext fmt1f ts ev ti n)
    simpa using this

/-- Witness for C9: one generate call with a concrete underscore-free
clock; the collision-freeness hypothesis is discharged at the only index
pair (0, 0). -/
theorem sequential_alert_ids_distinct_witness :
    ((generateSeq extDefault (fun _ => "") (fun _ => "T") [] {} 1).alert_history.map
        (fun a => a.alert_id)).Nodup :=
  (sequential_alert_ids_distinct extDefault (fun _ => "") (fun _ => "T") [] {} 1
    (fun _ => show ('_' ∉ ("T" : String).data) from by decide)
    (fun i j hi hj _ => by
      obtain rfl : i = 0 := Nat.lt_one_iff.mp hi
      obtain rfl : j = 0 := Nat.lt_one_iff.mp hj
      rfl)).1
